import Mathlib

/-!
Formal model of the `browser-worker` session-acquisition engine
(`src/index.js`, two worker variants: a Stagehand-based one and a
Puppeteer-based one, each containing `maskSecrets`, `log`,
`ensureLoggedIn` and a `fetch` handler).

The browser page, the KV store and the JS runtime are external to the
worker, so they are modelled as oracles: a `PageWorld` record supplies
the outcome of each browser/KV call site, and each engine run produces
the final JS value (`Except` for thrown errors) together with the trace
of browser/store operations it performed.
-/

/-- JS truthiness of a string-or-nullish value: `null`/`undefined` and the
empty string are falsy, every other string is truthy. -/
def truthyO : Option String → Bool
  | none => false
  | some s => s != ""

/-- JS `a || b` for a string-or-nullish `a` with a string default `b`
(used for the selector defaults, e.g. `env.LOGIN_USER_SELECTOR || '...'`). -/
def jsOrS (o : Option String) (d : String) : String :=
  match o with
  | some s => if s = "" then d else s
  | none => d

/-- JS `a || b` where both sides are string-or-nullish
(used for `searchParams.get("url") || env.TARGET_URL`). -/
def jsOrOpt (a b : Option String) : Option String :=
  if truthyO a then a else b

/-- JS `env.LOGIN_SUCCESS_SELECTOR || null`: an empty string collapses to null. -/
def jsOrNull (o : Option String) : Option String :=
  match o with
  | some s => if s = "" then none else some s
  | none => none

/-- JS `String.prototype.indexOf`: index of the first occurrence of `sub`
in `s`, or `-1` when `sub` does not occur (computed over the character
lists, so that the kernel can evaluate it). -/
def jsIndexOf (s sub : String) : Int :=
  match (List.range (s.data.length + 1)).find? (fun i => sub.data.isPrefixOf (s.data.drop i)) with
  | some i => (i : Int)
  | none => -1

/-- JS `s.indexOf(sub) !== -1`. -/
def jsIncludes (s sub : String) : Bool :=
  jsIndexOf s sub != -1

/-- JS `String.prototype.toUpperCase` (ASCII; all the inputs it receives in
this program are ASCII). -/
def jsToUpper (s : String) : String :=
  String.mk (s.data.map Char.toUpper)

/-- `maskSecrets` from `src/index.js` lines 19-24 (the Puppeteer variant at
lines 357-362 is character-identical):
`if (!key) return value;`
`const secretKeys = ['LOGIN_PASS', 'LOGIN_USER', 'password', 'passwd'];`
`if (secretKeys.includes(key.toString().toUpperCase())) return '****';`
`return value;`
Here `key` is always a string (an `Object.entries` key), so `!key` is
exactly `key = ""`. -/
def maskSecrets (key value : String) : String :=
  if key = "" then value
  else if ["LOGIN_PASS", "LOGIN_USER", "password", "passwd"].contains (jsToUpper key)
  then "****"
  else value

/-- Worker environment bindings read by the engine and the logger.
Absent bindings are `none` (JS `undefined`). -/
structure WorkerEnv where
  DEBUG : Option String := none
  LOGIN_USER : Option String := none
  LOGIN_PASS : Option String := none
  LOGIN_USER_SELECTOR : Option String := none
  LOGIN_PASS_SELECTOR : Option String := none
  LOGIN_SUBMIT_SELECTOR : Option String := none
  LOGIN_SUCCESS_SELECTOR : Option String := none
  TARGET_URL : Option String := none
  LOGIN_URL : Option String := none
deriving DecidableEq

/-- The debug gate of `log` (lines 30-31): output is suppressed exactly when
`env && (env.DEBUG === 'false' || env.DEBUG === '0')` is truthy; a missing
`env` is falsy, so logging stays enabled. -/
def logSuppressed (env : Option WorkerEnv) : Bool :=
  match env with
  | some e => e.DEBUG == some "false" || e.DEBUG == some "0"
  | none => false

/-- One masked metadata entry, as produced by the `Object.entries(meta).reduce`
fold in `log` (lines 36-45) followed by `JSON.stringify`: the key is kept,
the value passes through `maskSecrets`. (The inner `catch` of the fold is
unreachable for string values: `toUpperCase` on a string key cannot throw.) -/
def renderMetaEntry (kv : String × String) : String :=
  "\"" ++ kv.1 ++ "\":\"" ++ maskSecrets kv.1 kv.2 ++ "\""

/-- `JSON.stringify(metaStr)` of the masked metadata object. -/
def renderMeta (meta : List (String × String)) : String :=
  "\x7b" ++ String.intercalate "," (meta.map renderMetaEntry) ++ "\x7d"

/-- The `log` function from `src/index.js` lines 27-51: returns the line
handed to `console.log`, or `none` when the debug gate suppresses output.
`now` stands for `new Date().toISOString()`; `meta` is the metadata object
(`none` when the argument is omitted). -/
def logLine (now : String) (env : Option WorkerEnv) (level message : String)
    (meta : Option (List (String × String))) : Option String :=
  if logSuppressed env then none
  else
    match meta with
    | some m =>
        some ("[" ++ now ++ "] [" ++ level ++ "] " ++ message ++ " " ++ renderMeta m)
    | none =>
        some ("[" ++ now ++ "] [" ++ level ++ "] " ++ message)

/-- A cookie record as captured from / restored into the browser context. -/
structure Cookie where
  name : String
  value : String
deriving DecidableEq

/-- `JSON.stringify` of a cookie array (the flat text encoding stored in KV). -/
def serializeCookie (c : Cookie) : String :=
  "\x7b\"name\":\"" ++ c.name ++ "\",\"value\":\"" ++ c.value ++ "\"\x7d"

def serializeCookies (cs : List Cookie) : String :=
  "[" ++ String.intercalate "," (cs.map serializeCookie) ++ "]"

/-- One browser/store operation performed by `ensureLoggedIn`, in program order. -/
inductive Op where
  | kvGet (key : String)
  | setCookie (cookies : List Cookie)
  | goto (url : String)
  | query (sel : String)
  | waitForSelector (sel : String) (timeoutMs : Nat)
  | typeText (sel : String)
  | armNavWatcher (timeoutMs : Nat)
  | armSuccessWatcher (sel : Option String) (timeoutMs : Nat)
  | click (sel : String)
  | queryFrameForms (frame : Nat)
  | evalFormStep (frame form : Nat)
  | submitForm (frame form : Nat)
  | waitForNavigation (timeoutMs : Nat)
  | raceWatchers
  | pollForUrlPrefix (expected : String) (timeoutMs : Nat)
  | pollForUrlChange (loginUrl : String) (timeoutMs : Nat)
  | pageCookies
  | kvPut (key : String) (value : String) (ttlSeconds : Nat)
deriving DecidableEq

instance {ε α : Type} [DecidableEq ε] [DecidableEq α] : DecidableEq (Except ε α) :=
  fun a b =>
    match a, b with
    | .error e, .error f => decidable_of_iff (e = f) (by simp)
    | .error _, .ok _ => isFalse (by simp)
    | .ok _, .error _ => isFalse (by simp)
    | .ok x, .ok y => decidable_of_iff (x = y) (by simp)

/-- One frame of the page during the post-submit scan: its URL and the result
of `frame.$$('form[method="post"]')` (`.error` when the frame-level scan
throws), each found form giving the value of
`frame.evaluate((form) => form.action || form.getAttribute('action'), f)`
after its `.catch(() => null)` (so `none` is a null/absent action). -/
structure FrameW where
  url : String := ""
  postForms : Except Unit (List (Option String)) := .ok []
deriving DecidableEq

/-- Oracle for the outcomes of every external call site of one
`ensureLoggedIn` run. `Except.error ()` at a field means that call rejects. -/
structure PageWorld where
  /-- `env.BROWSER_KV_DEMO.get(cookieKey)`: error, null, or the saved string. -/
  kvSaved : Except Unit (Option String) := .ok none
  /-- Outcome of `JSON.parse(saved)` on that string: `.error` when the parse
  throws, `.ok none` for any parsed value failing the `cookies && cookies.length`
  guard (null, a non-array, an empty array-like), `.ok (some cs)` for an array
  viewed as a cookie list. -/
  jsParse : Except Unit (Option (List Cookie)) := .ok none
  setCookieOk : Except Unit Unit := .ok ()
  /-- Phase-1 `page.goto(loginUrl, ...)` used to validate the restored session. -/
  gotoValidateOk : Except Unit Unit := .ok ()
  /-- Phase-1 `page.$(env.LOGIN_SUCCESS_SELECTOR)`: rejected, or found?. -/
  restoreQuerySel : Except Unit Bool := .ok false
  /-- Phase-1 `page.$('.profile-avatar')`: rejected, or found?. -/
  restoreQueryAvatar : Except Unit Bool := .ok false
  /-- Phase-2 `page.goto(loginUrl, ...)` (outside every try/catch). -/
  gotoLoginOk : Except Unit Unit := .ok ()
  /-- `page.$(userSelector)`: rejected, or found?. -/
  userQuery : Except Unit Bool := .ok false
  typeUserOk : Except Unit Unit := .ok ()
  /-- `page.$(passSelector)`: rejected, or found?. -/
  passQuery : Except Unit Bool := .ok false
  typePassOk : Except Unit Unit := .ok ()
  clickOk : Except Unit Unit := .ok ()
  /-- `page.frames()` at scan time. -/
  frames : List FrameW := []
  /-- Settlement (time, outcome) of the navigation watcher armed before submit. -/
  navSettle : Nat × Except Unit Unit := (0, .error ())
  /-- Settlement (time, outcome) of the success-selector watcher. -/
  succSettle : Nat × Except Unit Unit := (0, .error ())
  /-- The page's current URL at each instant of the destination-await phase. -/
  destUrlAt : Nat → String := fun _ => ""
  /-- Time taken by the final `waitForNavigation` network-idle wait. -/
  idleDelta : Nat := 0
  /-- `page.cookies()` at save time. -/
  pageCookiesRes : Except Unit (List Cookie) := .ok []
  kvPutOk : Except Unit Unit := .ok ()

/-- `.catch(() => null)` on a watcher: its rejection is converted to a
fulfilled null, keeping the settlement time. -/
def armWatcher (s : Nat × Except Unit Unit) : Nat × Option Unit :=
  (s.1, match s.2 with
        | .ok v => some v
        | .error _ => none)

/-- `Promise.race` of two already-armed watchers: the earlier settlement wins
(ties resolve to the first argument, matching registration order). -/
def promiseRace (a b : Nat × Option Unit) : Nat × Option Unit :=
  if a.1 ≤ b.1 then a else b

/-- The polling loop of `page.waitForFunction(pred, { timeout })`: starting at
instant `t`, return the first instant within the remaining `fuel` at which the
predicate holds. -/
def pollFirstAux (pred : Nat → Bool) (t : Nat) : Nat → Option Nat
  | 0 => if pred t then some t else none
  | fuel + 1 => if pred t then some t else pollFirstAux pred (t + 1) fuel

/-- First instant in `0..timeout` at which `pred` holds, else `none` (timeout). -/
def pollFirst (pred : Nat → Bool) (timeout : Nat) : Option Nat :=
  pollFirstAux pred 0 timeout

namespace Worker1

/-!
The Stagehand worker variant: `src/index.js` lines 54-226 (`ensureLoggedIn`)
and lines 228-343 (`fetch`).
-/

/-- Default selectors of lines 90-92. -/
def defaultUserSelector : String := "input[name=\"email\"], input[name=\"username\"], #username"

def defaultPassSelector : String := "input[name=\"password\"], #password"

def defaultSubmitSelector : String := ".auth0-lock-submit, button[type=\"submit\"], #\\31 -submit"

/-- The form-submission condition of lines 165-166:
`looksLikeCallback = action && (action.indexOf('callback') !== -1 ||`
`  (expectedRedirectUrl && action.indexOf(expectedRedirectUrl) !== -1));`
`if (looksLikeCallback || !expectedRedirectUrl) ...`. -/
def formMatch (expectedRedirectUrl : Option String) (action : Option String) : Bool :=
  let looksLikeCallback :=
    match action with
    | some a =>
        a != "" &&
          (jsIncludes a "callback" ||
            (truthyO expectedRedirectUrl && jsIncludes a (expectedRedirectUrl.getD "")))
    | none => false
  looksLikeCallback || !truthyO expectedRedirectUrl

/-- The inner form loop of lines 159-177: examine the frame's POST forms in
order, submit the first one satisfying `formMatch` (then
`waitForNavigation` bounded 30s and `break`). Returns the submitted form's
index within the frame, if any, and the operations performed. -/
def scanForms (expectedRedirectUrl : Option String) (frame : Nat) :
    List (Option String) → Nat → Option Nat × List Op
  | [], _ => (none, [])
  | action :: rest, j =>
      if formMatch expectedRedirectUrl action then
        (some j, [Op.evalFormStep frame j, Op.submitForm frame j, Op.waitForNavigation 30000])
      else
        let (r, ops) := scanForms expectedRedirectUrl frame rest (j + 1)
        (r, Op.evalFormStep frame j :: ops)

/-- The frame loop of lines 150-186: scan every frame for POST forms,
`continue` on an empty or failed `frame.$$`, stop as soon as one form has
been submitted (`if (submitted) break`). -/
def scanFrames (expectedRedirectUrl : Option String) :
    List FrameW → Nat → Option (Nat × Nat) × List Op
  | [], _ => (none, [])
  | f :: rest, i =>
      match f.postForms with
      | .error _ =>
          let (r, ops) := scanFrames expectedRedirectUrl rest (i + 1)
          (r, Op.queryFrameForms i :: ops)
      | .ok forms =>
          if forms.isEmpty then
            let (r, ops) := scanFrames expectedRedirectUrl rest (i + 1)
            (r, Op.queryFrameForms i :: ops)
          else
            match scanForms expectedRedirectUrl i forms 0 with
            | (some j, ops) => (some (i, j), Op.queryFrameForms i :: ops)
            | (none, ops) =>
                let (r, ops2) := scanFrames expectedRedirectUrl rest (i + 1)
                (r, (Op.queryFrameForms i :: ops) ++ ops2)

/-- The credential-typing steps of lines 113-135: `page.$` each field inside
its own try, type into it only when it was found (a rejected query or typing
error is caught and the flow proceeds). -/
def credOps (w : PageWorld) (userSelector passSelector : String) : List Op :=
  (Op.query userSelector ::
      match w.userQuery with
      | .ok true => [Op.typeText userSelector]
      | _ => []) ++
    (Op.query passSelector ::
      match w.passQuery with
      | .ok true => [Op.typeText passSelector]
      | _ => [])

/-- The destination-await phase, lines 195-216. With a truthy
`expectedRedirectUrl` the code (inside one try whose catch only logs):
`await page.waitForFunction((expected) => window.location.href.indexOf(expected) === 0, { timeout: 30000 }, expectedRedirectUrl)` —
a timeout here throws to the catch, skipping the rest of the try —
then `await page.waitForNavigation({ waitUntil: 'networkidle0', timeout: 15000 }).catch(() => null)`
and `return page.url()`. Without one, it polls (with `.catch`) for
`window.location.href !== login`, waits for network idle, and falls through.
Returns the early-return value (`some` = `return page.url()`) and the operations. -/
def destPhase (w : PageWorld) (loginUrl : String) (expectedRedirectUrl : Option String) :
    Option String × List Op :=
  if truthyO expectedRedirectUrl then
    let expected := expectedRedirectUrl.getD ""
    match pollFirst (fun t => jsIndexOf (w.destUrlAt t) expected == 0) 30000 with
    | some t =>
        (some (w.destUrlAt (t + w.idleDelta)),
          [Op.pollForUrlPrefix expected 30000, Op.waitForNavigation 15000])
    | none => (none, [Op.pollForUrlPrefix expected 30000])
  else
    (none, [Op.pollForUrlChange loginUrl 30000, Op.waitForNavigation 15000])

/-- Phase 1 of `ensureLoggedIn` (lines 57-86): restore cookies from KV and
probe whether the session is still valid. The whole phase sits inside one
try whose catch logs and falls through, so the phase never throws; it
returns whether the function `return`s early, and the operations performed. -/
def restorePhase (env : WorkerEnv) (w : PageWorld) (loginUrl cookieKey : String) :
    Bool × List Op :=
  let ops0 := [Op.kvGet cookieKey]
  match w.kvSaved with
  | .error _ => (false, ops0)
  | .ok saved =>
      if truthyO saved then
        match w.jsParse with
        | .error _ => (false, ops0)
        | .ok none => (false, ops0)
        | .ok (some cookies) =>
            if cookies.isEmpty then (false, ops0)
            else
              let ops1 := ops0 ++ [Op.setCookie cookies]
              match w.setCookieOk with
              | .error _ => (false, ops1)
              | .ok _ =>
                  let ops2 := ops1 ++ [Op.goto loginUrl]
                  match w.gotoValidateOk with
                  | .error _ => (false, ops2)
                  | .ok _ =>
                      if truthyO env.LOGIN_SUCCESS_SELECTOR then
                        let ops3 := ops2 ++ [Op.query (env.LOGIN_SUCCESS_SELECTOR.getD "")]
                        match w.restoreQuerySel with
                        | .ok true => (true, ops3)
                        | _ => (false, ops3)
                      else
                        let ops3 := ops2 ++ [Op.query ".profile-avatar"]
                        match w.restoreQueryAvatar with
                        | .ok true => (true, ops3)
                        | _ => (false, ops3)
      else (false, ops0)

/-- Phase 2 of `ensureLoggedIn` (lines 88-226): the fresh login. Only the
line-96 `page.goto(loginUrl, ...)` stands outside every try/catch, so only
its rejection escapes to the caller. Returns the function's JS result
(`.ok none` = `undefined`) and the operations performed. -/
def freshLogin (env : WorkerEnv) (w : PageWorld) (loginUrl cookieKey : String)
    (expectedRedirectUrl : Option String) : Except Unit (Option String) × List Op :=
  let userSelector := jsOrS env.LOGIN_USER_SELECTOR defaultUserSelector
  let passSelector := jsOrS env.LOGIN_PASS_SELECTOR defaultPassSelector
  let submitSelector := jsOrS env.LOGIN_SUBMIT_SELECTOR defaultSubmitSelector
  let successSelector := jsOrNull env.LOGIN_SUCCESS_SELECTOR
  match w.gotoLoginOk with
  | .error e => (.error e, [Op.goto loginUrl])
  | .ok _ =>
      -- lines 99-110: bounded waits for the Lock container and the username
      -- field, each failure caught (the second logged via console.warn)
      let ops1 := [Op.goto loginUrl,
        Op.waitForSelector ".auth0-lock-container" 5000,
        Op.waitForSelector userSelector 15000] ++
        credOps w userSelector passSelector ++
        -- lines 137-139: both watchers are armed (with their own `.catch`)
        -- before the line-144 submit click
        [Op.armNavWatcher 15000,
          Op.armSuccessWatcher successSelector 15000,
          Op.click submitSelector]
      let (_submitted, scanOps) := scanFrames expectedRedirectUrl w.frames 0
      -- line 190: `await Promise.race([navPromise, successPromise])`; the
      -- race's value is discarded (a missing success selector races against
      -- `Promise.resolve(null)`, which settles at once)
      let _raceOutcome :=
        promiseRace (armWatcher w.navSettle)
          (match successSelector with
           | some _ => armWatcher w.succSettle
           | none => (0, some ()))
      let ops2 := ops1 ++ scanOps ++ [Op.raceWatchers]
      match destPhase w loginUrl expectedRedirectUrl with
      | (some url, destOps) =>
          -- line 206: `return page.url()` leaves the function before the
          -- lines 219-225 cookie save can run
          (.ok (some url), ops2 ++ destOps)
      | (none, destOps) =>
          let ops3 := ops2 ++ destOps ++ [Op.pageCookies]
          match w.pageCookiesRes with
          | .error _ => (.ok none, ops3)
          | .ok cs =>
              (.ok none,
                ops3 ++ [Op.kvPut cookieKey (serializeCookies cs) (60 * 60 * 24 * 7)])

/-- `ensureLoggedIn(page, env, loginUrl, cookieKey, expectedRedirectUrl)`,
lines 54-226: restore-and-validate, else fresh login. -/
def ensureLoggedIn (env : WorkerEnv) (w : PageWorld) (loginUrl cookieKey : String)
    (expectedRedirectUrl : Option String := none) : Except Unit (Option String) × List Op :=
  match restorePhase env w loginUrl cookieKey with
  | (true, ops) => (.ok none, ops)
  | (false, ops) =>
      let (res, fops) := freshLogin env w loginUrl cookieKey expectedRedirectUrl
      (res, ops ++ fops)

end Worker1

namespace Worker2

/-!
The Puppeteer worker variant: `src/index.js` lines 390-561 (`ensureLoggedIn`)
and lines 563-655 (`fetch`). Its `ensureLoggedIn` differs from Worker1's only
in comments and in one `log` call inside the catch of the line-524
`Promise.race` await — a catch that cannot fire, since both raced promises
carry their own `.catch`.
-/

/-- Default selectors of lines 423-426. -/
def defaultUserSelector : String := "input[name=\"email\"], input[name=\"username\"], #username"

def defaultPassSelector : String := "input[name=\"password\"], #password"

def defaultSubmitSelector : String := ".auth0-lock-submit, button[type=\"submit\"], #\\31 -submit"

/-- The form-submission condition of lines 497-498. -/
def formMatch (expectedRedirectUrl : Option String) (action : Option String) : Bool :=
  let looksLikeCallback :=
    match action with
    | some a =>
        a != "" &&
          (jsIncludes a "callback" ||
            (truthyO expectedRedirectUrl && jsIncludes a (expectedRedirectUrl.getD "")))
    | none => false
  looksLikeCallback || !truthyO expectedRedirectUrl

/-- The inner form loop of lines 493-510. -/
def scanForms (expectedRedirectUrl : Option String) (frame : Nat) :
    List (Option String) → Nat → Option Nat × List Op
  | [], _ => (none, [])
  | action :: rest, j =>
      if formMatch expectedRedirectUrl action then
        (some j, [Op.evalFormStep frame j, Op.submitForm frame j, Op.waitForNavigation 30000])
      else
        let (r, ops) := scanForms expectedRedirectUrl frame rest (j + 1)
        (r, Op.evalFormStep frame j :: ops)

/-- The frame loop of lines 485-520. -/
def scanFrames (expectedRedirectUrl : Option String) :
    List FrameW → Nat → Option (Nat × Nat) × List Op
  | [], _ => (none, [])
  | f :: rest, i =>
      match f.postForms with
      | .error _ =>
          let (r, ops) := scanFrames expectedRedirectUrl rest (i + 1)
          (r, Op.queryFrameForms i :: ops)
      | .ok forms =>
          if forms.isEmpty then
            let (r, ops) := scanFrames expectedRedirectUrl rest (i + 1)
            (r, Op.queryFrameForms i :: ops)
          else
            match scanForms expectedRedirectUrl i forms 0 with
            | (some j, ops) => (some (i, j), Op.queryFrameForms i :: ops)
            | (none, ops) =>
                let (r, ops2) := scanFrames expectedRedirectUrl rest (i + 1)
                (r, (Op.queryFrameForms i :: ops) ++ ops2)

/-- The credential-typing steps of lines 447-469. -/
def credOps (w : PageWorld) (userSelector passSelector : String) : List Op :=
  (Op.query userSelector ::
      match w.userQuery with
      | .ok true => [Op.typeText userSelector]
      | _ => []) ++
    (Op.query passSelector ::
      match w.passQuery with
      | .ok true => [Op.typeText passSelector]
      | _ => [])

/-- The destination-await phase, lines 529-551. -/
def destPhase (w : PageWorld) (loginUrl : String) (expectedRedirectUrl : Option String) :
    Option String × List Op :=
  if truthyO expectedRedirectUrl then
    let expected := expectedRedirectUrl.getD ""
    match pollFirst (fun t => jsIndexOf (w.destUrlAt t) expected == 0) 30000 with
    | some t =>
        (some (w.destUrlAt (t + w.idleDelta)),
          [Op.pollForUrlPrefix expected 30000, Op.waitForNavigation 15000])
    | none => (none, [Op.pollForUrlPrefix expected 30000])
  else
    (none, [Op.pollForUrlChange loginUrl 30000, Op.waitForNavigation 15000])

/-- Phase 1 of `ensureLoggedIn` (lines 392-419). -/
def restorePhase (env : WorkerEnv) (w : PageWorld) (loginUrl cookieKey : String) :
    Bool × List Op :=
  let ops0 := [Op.kvGet cookieKey]
  match w.kvSaved with
  | .error _ => (false, ops0)
  | .ok saved =>
      if truthyO saved then
        match w.jsParse with
        | .error _ => (false, ops0)
        | .ok none => (false, ops0)
        | .ok (some cookies) =>
            if cookies.isEmpty then (false, ops0)
            else
              let ops1 := ops0 ++ [Op.setCookie cookies]
              match w.setCookieOk with
              | .error _ => (false, ops1)
              | .ok _ =>
                  let ops2 := ops1 ++ [Op.goto loginUrl]
                  match w.gotoValidateOk with
                  | .error _ => (false, ops2)
                  | .ok _ =>
                      if truthyO env.LOGIN_SUCCESS_SELECTOR then
                        let ops3 := ops2 ++ [Op.query (env.LOGIN_SUCCESS_SELECTOR.getD "")]
                        match w.restoreQuerySel with
                        | .ok true => (true, ops3)
                        | _ => (false, ops3)
                      else
                        let ops3 := ops2 ++ [Op.query ".profile-avatar"]
                        match w.restoreQueryAvatar with
                        | .ok true => (true, ops3)
                        | _ => (false, ops3)
      else (false, ops0)

/-- Phase 2 of `ensureLoggedIn` (lines 421-561); only the line-430
`page.goto(loginUrl, ...)` stands outside every try/catch. -/
def freshLogin (env : WorkerEnv) (w : PageWorld) (loginUrl cookieKey : String)
    (expectedRedirectUrl : Option String) : Except Unit (Option String) × List Op :=
  let userSelector := jsOrS env.LOGIN_USER_SELECTOR defaultUserSelector
  let passSelector := jsOrS env.LOGIN_PASS_SELECTOR defaultPassSelector
  let submitSelector := jsOrS env.LOGIN_SUBMIT_SELECTOR defaultSubmitSelector
  let successSelector := jsOrNull env.LOGIN_SUCCESS_SELECTOR
  match w.gotoLoginOk with
  | .error e => (.error e, [Op.goto loginUrl])
  | .ok _ =>
      let ops1 := [Op.goto loginUrl,
        Op.waitForSelector ".auth0-lock-container" 5000,
        Op.waitForSelector userSelector 15000] ++
        credOps w userSelector passSelector ++
        -- lines 472-473: watchers armed before the line-479 click
        [Op.armNavWatcher 15000,
          Op.armSuccessWatcher successSelector 15000,
          Op.click submitSelector]
      let (_submitted, scanOps) := scanFrames expectedRedirectUrl w.frames 0
      let _raceOutcome :=
        promiseRace (armWatcher w.navSettle)
          (match successSelector with
           | some _ => armWatcher w.succSettle
           | none => (0, some ()))
      let ops2 := ops1 ++ scanOps ++ [Op.raceWatchers]
      match destPhase w loginUrl expectedRedirectUrl with
      | (some url, destOps) =>
          -- line 541: `return page.url()` precedes the lines 554-560 save
          (.ok (some url), ops2 ++ destOps)
      | (none, destOps) =>
          let ops3 := ops2 ++ destOps ++ [Op.pageCookies]
          match w.pageCookiesRes with
          | .error _ => (.ok none, ops3)
          | .ok cs =>
              (.ok none,
                ops3 ++ [Op.kvPut cookieKey (serializeCookies cs) (60 * 60 * 24 * 7)])

/-- `ensureLoggedIn`, lines 390-561. -/
def ensureLoggedIn (env : WorkerEnv) (w : PageWorld) (loginUrl cookieKey : String)
    (expectedRedirectUrl : Option String := none) : Except Unit (Option String) × List Op :=
  match restorePhase env w loginUrl cookieKey with
  | (true, ops) => (.ok none, ops)
  | (false, ops) =>
      let (res, fops) := freshLogin env w loginUrl cookieKey expectedRedirectUrl
      (res, ops ++ fops)

end Worker2

/-- Query parameters of one request (`searchParams.get(...)`; `none` = absent). -/
structure ReqParams where
  url : Option String := none
  login : Option String := none
  action_ : Option String := none
  nocache : Option String := none
deriving DecidableEq

/-- A JS exception escaping the fetch handler. -/
inductive JsError where
  /-- Reading an undeclared variable (e.g. `browser` in the Stagehand fetch). -/
  | referenceError
  /-- `new URL(url)` on an unparsable string. -/
  | urlParseError
  /-- A rejection escaping `ensureLoggedIn` (its line-96/430 `page.goto`). -/
  | engineError
deriving DecidableEq

/-- What the fetch handler's promise settles to. -/
inductive FetchResult where
  | response (status : Nat) (body : String)
  | thrown (e : JsError)
deriving DecidableEq

/-- An operation of the fetch handler around the engine. -/
inductive FOp where
  | kvDeleteCookies (key : String)
  | kvGetImg (url : String)
  | launchBrowser
  /-- One `ensureLoggedIn(...)` invocation, with the engine's own operations. -/
  | engineCall (ops : List Op)
  | gotoFinal (url : String)
  | screenshot
  | kvPutImg (url : String)
  | closeBrowser
deriving DecidableEq

/-- Oracle for the fetch handler's own external calls. -/
structure FetchWorld where
  page : PageWorld := {}
  /-- `new URL(url).toString()`: the normalized URL, or a thrown TypeError. -/
  normalize : String → Except Unit String := fun s => .ok s
  /-- `env.BROWSER_KV_DEMO.get(url, { type: "arrayBuffer" })`: a cached image?. -/
  cachedImg : Option Unit := none
  /-- `env.BROWSER_KV_DEMO.delete(...)` in the clear-cookies branch. -/
  kvDeleteOk : Except Unit Unit := .ok ()

/-- `!env.LOGIN_USER || !env.LOGIN_PASS` (lines 282 and 325 / 598 and 638). -/
def credsMissing (env : WorkerEnv) : Bool :=
  !truthyO env.LOGIN_USER || !truthyO env.LOGIN_PASS

namespace Worker1

/-- The Stagehand variant's `fetch` (lines 229-343), restricted to routing,
caching, the credential precondition and the engine invocation; screenshot
encoding is abstracted to one `screenshot` operation. -/
def fetchHandler (p : ReqParams) (env : WorkerEnv) (w : FetchWorld) :
    FetchResult × List FOp :=
  let url0 := jsOrOpt p.url env.TARGET_URL
  let loginUrl := jsOrOpt p.login env.LOGIN_URL
  if p.action_ == some "clear-cookies" then
    if !truthyO loginUrl then
      (.response 400 "Missing login URL for clearing cookies", [])
    else
      let l := loginUrl.getD ""
      match w.kvDeleteOk with
      | .ok _ =>
          (.response 200 ("Cleared cookies for " ++ l), [.kvDeleteCookies ("cookies:" ++ l)])
      | .error _ =>
          (.response 500 "Failed to clear cookies", [.kvDeleteCookies ("cookies:" ++ l)])
  else if truthyO url0 then
    match w.normalize (url0.getD "") with
    | .error _ => (.thrown .urlParseError, [])
    | .ok u =>
        -- line 261: the KV cache is consulted unless `nocache` is set
        let cached := if !truthyO p.nocache then (w.cachedImg, [FOp.kvGetImg u])
          else (none, ([] : List FOp))
        match cached.1 with
        | some _ => (.response 200 "<image>", cached.2)
        | none =>
            let ops2 := cached.2 ++ [FOp.launchBrowser]
            if truthyO loginUrl then
              if credsMissing env then
                -- line 283 reads `await browser.close()`, but no `browser` is
                -- bound anywhere in this variant's fetch (the handle is named
                -- `stagehand`): evaluating it throws a ReferenceError, so the
                -- line-284 400 Response is never constructed
                (.thrown .referenceError, ops2)
              else
                let l := loginUrl.getD ""
                match Worker1.ensureLoggedIn env w.page l ("cookies:" ++ l) (some u) with
                | (.error _, eops) => (.thrown .engineError, ops2 ++ [FOp.engineCall eops])
                | (.ok fin, eops) =>
                    let screenshotUrl := jsOrS fin u
                    (.response 200 "<image>",
                      ops2 ++ [FOp.engineCall eops, FOp.gotoFinal screenshotUrl,
                        FOp.screenshot, FOp.closeBrowser])
            else
              (.response 200 "<image>", ops2 ++ [FOp.gotoFinal u, FOp.screenshot, FOp.closeBrowser])
  else if truthyO loginUrl then
    -- lines 315-337: login-only mode; here the credential check correctly
    -- closes `stagehand` and returns the 400 Response
    let ops := [FOp.launchBrowser]
    if credsMissing env then
      (.response 400 "Missing LOGIN_USER / LOGIN_PASS in environment",
        ops ++ [FOp.closeBrowser])
    else
      let l := loginUrl.getD ""
      match Worker1.ensureLoggedIn env w.page l ("cookies:" ++ l) none with
      | (.error _, eops) => (.thrown .engineError, ops ++ [FOp.engineCall eops])
      | (.ok _, eops) =>
          (.response 200 "<image>", ops ++ [FOp.engineCall eops, FOp.screenshot, FOp.closeBrowser])
  else
    (.response 200
      "Please add an ?url=https://example.com/ parameter or set TARGET_URL in your environment",
      [])

end Worker1

namespace Worker2

/-- The Puppeteer variant's `fetch` (lines 564-655). No `nocache` parameter
exists here; the cache is always consulted, and a fresh screenshot is written
back to KV. Both credential checks close the (bound) `browser` handle and
return the 400 Response. -/
def fetchHandler (p : ReqParams) (env : WorkerEnv) (w : FetchWorld) :
    FetchResult × List FOp :=
  let url0 := jsOrOpt p.url env.TARGET_URL
  let loginUrl := jsOrOpt p.login env.LOGIN_URL
  if p.action_ == some "clear-cookies" then
    if !truthyO loginUrl then
      (.response 400 "Missing login URL for clearing cookies", [])
    else
      let l := loginUrl.getD ""
      match w.kvDeleteOk with
      | .ok _ =>
          (.response 200 ("Cleared cookies for " ++ l), [.kvDeleteCookies ("cookies:" ++ l)])
      | .error _ =>
          (.response 500 "Failed to clear cookies", [.kvDeleteCookies ("cookies:" ++ l)])
  else if truthyO url0 then
    match w.normalize (url0.getD "") with
    | .error _ => (.thrown .urlParseError, [])
    | .ok u =>
        match w.cachedImg with
        | some _ => (.response 200 "<image>", [FOp.kvGetImg u])
        | none =>
            let ops2 := [FOp.kvGetImg u, FOp.launchBrowser]
            if truthyO loginUrl then
              if credsMissing env then
                (.response 400 "Missing LOGIN_USER / LOGIN_PASS in environment",
                  ops2 ++ [FOp.closeBrowser])
              else
                let l := loginUrl.getD ""
                match Worker2.ensureLoggedIn env w.page l ("cookies:" ++ l) (some u) with
                | (.error _, eops) => (.thrown .engineError, ops2 ++ [FOp.engineCall eops])
                | (.ok fin, eops) =>
                    let screenshotUrl := jsOrS fin u
                    (.response 200 "<image>",
                      ops2 ++ [FOp.engineCall eops, FOp.gotoFinal screenshotUrl,
                        FOp.screenshot, FOp.kvPutImg u, FOp.closeBrowser])
            else
              (.response 200 "<image>",
                ops2 ++ [FOp.gotoFinal u, FOp.screenshot, FOp.kvPutImg u, FOp.closeBrowser])
  else if truthyO loginUrl then
    let ops := [FOp.launchBrowser]
    if credsMissing env then
      (.response 400 "Missing LOGIN_USER / LOGIN_PASS in environment",
        ops ++ [FOp.closeBrowser])
    else
      let l := loginUrl.getD ""
      match Worker2.ensureLoggedIn env w.page l ("cookies:" ++ l) none with
      | (.error _, eops) => (.thrown .engineError, ops ++ [FOp.engineCall eops])
      | (.ok _, eops) =>
          (.response 200 "<image>", ops ++ [FOp.engineCall eops, FOp.screenshot, FOp.closeBrowser])
  else
    (.response 200
      "Please add an ?url=https://example.com/ parameter or set TARGET_URL in your environment",
      [])

end Worker2

/-- Login-driver actions: credential typing, the submit click, a relay-form
submission. -/
def isDriverOp : Op → Bool
  | .typeText _ => true
  | .click _ => true
  | .submitForm _ _ => true
  | _ => false

/-- A Session-Store write. -/
def isKvPutOp : Op → Bool
  | .kvPut _ _ _ => true
  | _ => false

/-- A relay-form submission. -/
def isSubmitOp : Op → Bool
  | .submitForm _ _ => true
  | _ => false

/-- An `ensureLoggedIn` invocation by the fetch handler. -/
def isEngineCall : FOp → Bool
  | .engineCall _ => true
  | _ => false

/-- A convenient concrete environment with both credentials present. -/
def exEnv : WorkerEnv :=
  { LOGIN_USER := some "alice", LOGIN_PASS := some "hunter2" }

/-- A world with no stored session whose page sits at the expected
destination from the first poll instant on. -/
def exFreshWorld : PageWorld :=
  { destUrlAt := fun _ => "https://ex.com/app" }

/-- C10: `log` output is suppressed exactly when `env.DEBUG` is the string
`'false'` or the string `'0'`; for every other value, an unset `DEBUG` and a
missing `env` included, the message is emitted. -/
theorem C10_log_enabled_by_default (now : String) (env : Option WorkerEnv)
    (level message : String) (meta : Option (List (String × String))) :
    logLine now env level message meta = none ↔
      (Option.bind env WorkerEnv.DEBUG = some "false" ∨
        Option.bind env WorkerEnv.DEBUG = some "0") := by
  cases env with
  | none => simp [logLine, logSuppressed]; cases meta <;> simp
  | some e =>
      cases meta <;>
        simp [logLine, logSuppressed, Option.bind] <;>
        by_cases h1 : e.DEBUG = some "false" <;>
        by_cases h2 : e.DEBUG = some "0" <;>
        simp [h1, h2]

/-- C2 fails on the code: the masking rule uppercases the field name before
comparing it against a list that spells the aliases `password` and `passwd`
in lower case, so those two names are never masked and the literal credential
value reaches the log line; only `LOGIN_PASS`/`LOGIN_USER` (in any letter
case) are redacted. -/
theorem C2_password_alias_not_masked :
    maskSecrets "password" "hunter2" = "hunter2" ∧
    maskSecrets "passwd" "hunter2" = "hunter2" ∧
    maskSecrets "Password" "hunter2" = "hunter2" ∧
    logLine "2026-01-01T00:00:00.000Z" (some exEnv) "error" "login failed"
        (some [("password", "hunter2")]) =
      some "[2026-01-01T00:00:00.000Z] [error] login failed \x7b\"password\":\"hunter2\"\x7d" ∧
    (Option.map (fun line => jsIncludes line "hunter2")
        (logLine "2026-01-01T00:00:00.000Z" (some exEnv) "error" "login failed"
          (some [("password", "hunter2")])) = some true) ∧
    (Option.map (fun line => jsIncludes line "****")
        (logLine "2026-01-01T00:00:00.000Z" (some exEnv) "error" "login failed"
          (some [("password", "hunter2")])) = some false) ∧
    maskSecrets "LOGIN_PASS" "hunter2" = "****" ∧
    maskSecrets "login_pass" "hunter2" = "****" := by
  decide

/-- C1 fails on the code: in a fresh login whose expected destination URL is
reached, `ensureLoggedIn` returns `page.url()` from inside the
destination-await try block, bypassing the cookie-save block entirely — no
`put` reaches the Session Store (in either worker variant); with no expected
destination supplied the same run does save under the key with the 7-day
TTL, confirming the save is skipped only by that early return. -/
theorem C1_redirect_success_skips_save :
    (Worker1.ensureLoggedIn exEnv exFreshWorld "https://ex.com/login"
        "cookies:https://ex.com/login" (some "https://ex.com/app")).1 =
      .ok (some "https://ex.com/app") ∧
    (Worker1.ensureLoggedIn exEnv exFreshWorld "https://ex.com/login"
        "cookies:https://ex.com/login" (some "https://ex.com/app")).2.filter isKvPutOp = [] ∧
    (Worker2.ensureLoggedIn exEnv exFreshWorld "https://ex.com/login"
        "cookies:https://ex.com/login" (some "https://ex.com/app")).1 =
      .ok (some "https://ex.com/app") ∧
    (Worker2.ensureLoggedIn exEnv exFreshWorld "https://ex.com/login"
        "cookies:https://ex.com/login" (some "https://ex.com/app")).2.filter isKvPutOp = [] ∧
    (Worker1.ensureLoggedIn exEnv exFreshWorld "https://ex.com/login"
        "cookies:https://ex.com/login" none).2.filter isKvPutOp =
      [Op.kvPut "cookies:https://ex.com/login" "[]" 604800] := by
  decide

/-- C3 fails on the code in one of its four paths: in the Stagehand variant's
with-target-URL path, the missing-credential branch evaluates
`browser.close()` with no `browser` in scope, so the handler throws a
ReferenceError instead of returning the 400 Response (`ensureLoggedIn` is
still never invoked); the Stagehand login-only path and both Puppeteer paths
do return the 400 without invoking the engine. -/
theorem C3_missing_creds_reference_error :
    Worker1.fetchHandler
        { url := some "https://ex.com/app", login := some "https://ex.com/login",
          nocache := some "1" }
        { LOGIN_PASS := some "hunter2" } {} =
      (.thrown .referenceError, [FOp.launchBrowser]) ∧
    Worker1.fetchHandler { login := some "https://ex.com/login" }
        { LOGIN_PASS := some "hunter2" } {} =
      (.response 400 "Missing LOGIN_USER / LOGIN_PASS in environment",
        [FOp.launchBrowser, FOp.closeBrowser]) ∧
    Worker2.fetchHandler
        { url := some "https://ex.com/app", login := some "https://ex.com/login" }
        { LOGIN_PASS := some "hunter2" } {} =
      (.response 400 "Missing LOGIN_USER / LOGIN_PASS in environment",
        [FOp.kvGetImg "https://ex.com/app", FOp.launchBrowser, FOp.closeBrowser]) ∧
    Worker2.fetchHandler { login := some "https://ex.com/login" }
        { LOGIN_PASS := some "hunter2" } {} =
      (.response 400 "Missing LOGIN_USER / LOGIN_PASS in environment",
        [FOp.launchBrowser, FOp.closeBrowser]) := by
  decide

/-- C9: the two worker variants' `ensureLoggedIn` functions are equivalent:
on every environment, page behaviour, login URL, cookie key and expected
redirect URL they perform the same sequence of browser and store operations
and return the same result. (Their sources differ only in comments and in a
`log` call inside the catch of the `Promise.race` await — a catch that cannot
fire, both raced promises carrying their own `.catch`.) -/
theorem formMatch_eq12 : Worker1.formMatch = Worker2.formMatch := rfl

theorem defaults_eq12 :
    Worker1.defaultUserSelector = Worker2.defaultUserSelector ∧
    Worker1.defaultPassSelector = Worker2.defaultPassSelector ∧
    Worker1.defaultSubmitSelector = Worker2.defaultSubmitSelector := ⟨rfl, rfl, rfl⟩

theorem credOps_eq12 : Worker1.credOps = Worker2.credOps := rfl

theorem destPhase_eq12 : Worker1.destPhase = Worker2.destPhase := rfl

theorem restorePhase_eq12 : Worker1.restorePhase = Worker2.restorePhase := rfl

theorem scanForms_eq12 (e : Option String) (i : Nat) (forms : List (Option String)) :
    ∀ j, Worker1.scanForms e i forms j = Worker2.scanForms e i forms j := by
  induction forms with
  | nil => intro j; rfl
  | cons a rest ih =>
      intro j
      simp only [Worker1.scanForms, Worker2.scanForms, ih (j + 1), formMatch_eq12]

theorem scanFrames_eq12 (e : Option String) (frames : List FrameW) :
    ∀ i, Worker1.scanFrames e frames i = Worker2.scanFrames e frames i := by
  induction frames with
  | nil => intro i; rfl
  | cons f rest ih =>
      intro i
      simp only [Worker1.scanFrames, Worker2.scanFrames, ih (i + 1),
        scanForms_eq12 e i]

theorem freshLogin_eq12 (env : WorkerEnv) (w : PageWorld) (loginUrl cookieKey : String)
    (expectedRedirectUrl : Option String) :
    Worker1.freshLogin env w loginUrl cookieKey expectedRedirectUrl =
      Worker2.freshLogin env w loginUrl cookieKey expectedRedirectUrl := by
  unfold Worker1.freshLogin Worker2.freshLogin
  simp only [scanFrames_eq12 expectedRedirectUrl w.frames 0, credOps_eq12,
    destPhase_eq12, defaults_eq12.1, defaults_eq12.2.1, defaults_eq12.2.2]

theorem C9_variants_equivalent (env : WorkerEnv) (w : PageWorld)
    (loginUrl cookieKey : String) (expectedRedirectUrl : Option String) :
    Worker1.ensureLoggedIn env w loginUrl cookieKey expectedRedirectUrl =
      Worker2.ensureLoggedIn env w loginUrl cookieKey expectedRedirectUrl := by
  unfold Worker1.ensureLoggedIn Worker2.ensureLoggedIn
  simp only [freshLogin_eq12 env w loginUrl cookieKey expectedRedirectUrl,
    restorePhase_eq12]

/-- The indicator selector consulted by the phase-1 validation: the configured
success selector when truthy, else the built-in `.profile-avatar`. -/
def restoreIndicatorSelector (env : WorkerEnv) : String :=
  if truthyO env.LOGIN_SUCCESS_SELECTOR then env.LOGIN_SUCCESS_SELECTOR.getD ""
  else ".profile-avatar"

/-- The phase-1 validation probe found the logged-in indicator (the configured
success selector when one is set, else the default `.profile-avatar`). -/
def restoreIndicatorFound (env : WorkerEnv) (w : PageWorld) : Prop :=
  (truthyO env.LOGIN_SUCCESS_SELECTOR = true ∧ w.restoreQuerySel = .ok true) ∨
  (truthyO env.LOGIN_SUCCESS_SELECTOR = false ∧ w.restoreQueryAvatar = .ok true)

theorem restorePhase_valid (env : WorkerEnv) (w : PageWorld) (l k : String)
    (s : String) (cs : List Cookie)
    (hs : w.kvSaved = .ok (some s)) (hsne : s ≠ "")
    (hp : w.jsParse = .ok (some cs)) (hcs : cs ≠ [])
    (hset : w.setCookieOk = .ok ()) (hgoto : w.gotoValidateOk = .ok ())
    (hind : restoreIndicatorFound env w) :
    Worker1.restorePhase env w l k =
      (true, [Op.kvGet k, Op.setCookie cs, Op.goto l,
        Op.query (restoreIndicatorSelector env)]) := by
  have hts : truthyO (some s) = true := by simp [truthyO, bne_iff_ne, hsne]
  unfold Worker1.restorePhase
  rcases hind with ⟨h1, h2⟩ | ⟨h1, h2⟩ <;>
    simp [hs, hp, hset, hgoto, h1, h2, hts, List.isEmpty_iff, hcs,
      restoreIndicatorSelector]

theorem restorePhase_true_iff (env : WorkerEnv) (w : PageWorld) (l k : String) :
    (Worker1.restorePhase env w l k).1 = true ↔
      (∃ s, w.kvSaved = .ok (some s) ∧ s ≠ "") ∧
      (∃ cs, w.jsParse = .ok (some cs) ∧ cs ≠ []) ∧
      w.setCookieOk = .ok () ∧ w.gotoValidateOk = .ok () ∧
      restoreIndicatorFound env w := by
  unfold Worker1.restorePhase restoreIndicatorFound
  rcases hk : w.kvSaved with u | saved
  · cases u; simp [hk]
  · rcases saved with _ | s
    · simp [hk, truthyO]
    · by_cases hsne : s = ""
      · subst hsne; simp [hk, truthyO]
      · have hts : truthyO (some s) = true := by simp [truthyO, bne_iff_ne, hsne]
        rcases hp : w.jsParse with u | cso
        · cases u; simp [hk, hp, hts, hsne]
        · rcases cso with _ | cs
          · simp [hk, hp, hts, hsne]
          · by_cases hcs : cs = []
            · subst hcs; simp [hk, hp, hts, hsne]
            · have hce : cs.isEmpty = false := by simp [List.isEmpty_iff, hcs]
              rcases hset : w.setCookieOk with u | u
              · cases u; simp [hk, hp, hts, hsne, hce, hset, hcs]
              · cases u
                rcases hgoto : w.gotoValidateOk with u | u
                · cases u; simp [hk, hp, hts, hsne, hce, hset, hgoto, hcs]
                · cases u
                  by_cases hsel : truthyO env.LOGIN_SUCCESS_SELECTOR
                  · rcases hq : w.restoreQuerySel with u | b
                    · cases u; simp [hk, hp, hts, hsne, hce, hset, hgoto, hcs, hsel, hq]
                    · cases b <;> simp [hk, hp, hts, hsne, hce, hset, hgoto, hcs, hsel, hq]
                  · rcases hq : w.restoreQueryAvatar with u | b
                    · cases u
                      simp [hk, hp, hts, hsne, hce, hset, hgoto, hcs, hsel, hq]
                    · cases b <;>
                        simp [hk, hp, hts, hsne, hce, hset, hgoto, hcs, hsel, hq]

/-- C5: when a stored CookieSet is found (a truthy saved string parsing to a
non-empty cookie array), its restoration succeeds and the validation probe
finds the success indicator (the configured selector, else the default one),
`ensureLoggedIn` returns immediately: its whole trace is the restore/validate
sequence, with no login-driver action (no typing, no click, no form relay)
and no Session-Store write. -/
theorem C5_valid_restore_skips_login (env : WorkerEnv) (w : PageWorld)
    (loginUrl cookieKey : String) (expectedRedirectUrl : Option String)
    (s : String) (cs : List Cookie)
    (hs : w.kvSaved = .ok (some s)) (hsne : s ≠ "")
    (hp : w.jsParse = .ok (some cs)) (hcs : cs ≠ [])
    (hset : w.setCookieOk = .ok ()) (hgoto : w.gotoValidateOk = .ok ())
    (hind : restoreIndicatorFound env w) :
    Worker1.ensureLoggedIn env w loginUrl cookieKey expectedRedirectUrl =
      (.ok none, [Op.kvGet cookieKey, Op.setCookie cs, Op.goto loginUrl,
        Op.query (restoreIndicatorSelector env)]) ∧
    (Worker1.ensureLoggedIn env w loginUrl cookieKey expectedRedirectUrl).2.filter
        isDriverOp = [] ∧
    (Worker1.ensureLoggedIn env w loginUrl cookieKey expectedRedirectUrl).2.filter
        isKvPutOp = [] := by
  have h := restorePhase_valid env w loginUrl cookieKey s cs hs hsne hp hcs hset hgoto hind
  unfold Worker1.ensureLoggedIn
  rw [h]
  simp [isDriverOp, isKvPutOp]

/-- A world holding a stored, still-valid session. -/
def exRestoreWorld : PageWorld :=
  { kvSaved := .ok (some "[\x7b\"name\":\"sid\",\"value\":\"abc\"\x7d]"),
    jsParse := .ok (some [{ name := "sid", value := "abc" }]),
    restoreQueryAvatar := .ok true }

theorem C5_valid_restore_skips_login_witness :
    Worker1.ensureLoggedIn exEnv exRestoreWorld "https://ex.com/login"
        "cookies:https://ex.com/login" none =
      (.ok none, [Op.kvGet "cookies:https://ex.com/login",
        Op.setCookie [{ name := "sid", value := "abc" }],
        Op.goto "https://ex.com/login", Op.query ".profile-avatar"]) ∧
    (Worker1.ensureLoggedIn exEnv exRestoreWorld "https://ex.com/login"
        "cookies:https://ex.com/login" none).2.filter isDriverOp = [] ∧
    (Worker1.ensureLoggedIn exEnv exRestoreWorld "https://ex.com/login"
        "cookies:https://ex.com/login" none).2.filter isKvPutOp = [] :=
  C5_valid_restore_skips_login exEnv exRestoreWorld "https://ex.com/login"
    "cookies:https://ex.com/login" none "[\x7b\"name\":\"sid\",\"value\":\"abc\"\x7d]"
    [{ name := "sid", value := "abc" }] rfl (by decide) rfl (by decide) rfl rfl
    (Or.inr ⟨rfl, rfl⟩)

/-- The claim C6's failure cases: the stored CookieSet is absent (a failed or
null `get`), unparsable, empty, or an error is raised while restoring the
cookies or probing the session (setCookie, the validation goto, the indicator
query). -/
def RestoreFailure (env : WorkerEnv) (w : PageWorld) : Prop :=
  w.kvSaved = .error () ∨ w.kvSaved = .ok none ∨
  w.jsParse = .error () ∨ w.jsParse = .ok none ∨ w.jsParse = .ok (some []) ∨
  w.setCookieOk = .error () ∨ w.gotoValidateOk = .error () ∨
  (truthyO env.LOGIN_SUCCESS_SELECTOR = true ∧ w.restoreQuerySel = .error ()) ∨
  (truthyO env.LOGIN_SUCCESS_SELECTOR = false ∧ w.restoreQueryAvatar = .error ())

/-- C6: whenever the stored CookieSet is absent, empty or unparsable, or any
error is raised during cookie restoration or the validation probe,
`ensureLoggedIn` does not return early and does not propagate the error: its
result is exactly the fresh-login phase's result (the phase-1 operations
prefixed), and a world whose store holds the empty CookieSet `"[]"` behaves
identically to one whose store holds nothing. -/
theorem C6_restore_failure_never_raises (env : WorkerEnv) (w : PageWorld)
    (loginUrl cookieKey : String) (expectedRedirectUrl : Option String)
    (hfail : RestoreFailure env w) :
    (Worker1.restorePhase env w loginUrl cookieKey).1 = false ∧
    Worker1.ensureLoggedIn env w loginUrl cookieKey expectedRedirectUrl =
      ((Worker1.freshLogin env w loginUrl cookieKey expectedRedirectUrl).1,
        (Worker1.restorePhase env w loginUrl cookieKey).2 ++
          (Worker1.freshLogin env w loginUrl cookieKey expectedRedirectUrl).2) ∧
    Worker1.ensureLoggedIn env { w with kvSaved := .ok none } loginUrl cookieKey
        expectedRedirectUrl =
      Worker1.ensureLoggedIn env
        { w with kvSaved := .ok (some "[]"), jsParse := .ok (some []) } loginUrl
        cookieKey expectedRedirectUrl := by
  have hfalse : (Worker1.restorePhase env w loginUrl cookieKey).1 = false := by
    cases hb : (Worker1.restorePhase env w loginUrl cookieKey).1 with
    | false => rfl
    | true =>
        exfalso
        obtain ⟨⟨s, hs, hsne⟩, ⟨cs, hp, hcs⟩, hset, hgoto, hind⟩ :=
          (restorePhase_true_iff env w loginUrl cookieKey).mp hb
        rcases hfail with h|h|h|h|h|h|h|⟨h1,h2⟩|⟨h1,h2⟩ <;>
          rcases hind with ⟨g1,g2⟩|⟨g1,g2⟩ <;> simp_all
  refine ⟨hfalse, ?_, ?_⟩
  · unfold Worker1.ensureLoggedIn
    rcases hrp : Worker1.restorePhase env w loginUrl cookieKey with ⟨b, ops⟩
    have hbf : b = false := by rw [hrp] at hfalse; exact hfalse
    subst hbf
    simp [hrp]
  · rfl

theorem C6_restore_failure_never_raises_witness :
    (Worker1.restorePhase exEnv { kvSaved := .error () } "https://ex.com/login"
        "cookies:https://ex.com/login").1 = false ∧
    Worker1.ensureLoggedIn exEnv { kvSaved := .error () } "https://ex.com/login"
        "cookies:https://ex.com/login" none =
      ((Worker1.freshLogin exEnv { kvSaved := .error () } "https://ex.com/login"
          "cookies:https://ex.com/login" none).1,
        (Worker1.restorePhase exEnv { kvSaved := .error () } "https://ex.com/login"
            "cookies:https://ex.com/login").2 ++
          (Worker1.freshLogin exEnv { kvSaved := .error () } "https://ex.com/login"
              "cookies:https://ex.com/login" none).2) ∧
    Worker1.ensureLoggedIn exEnv
        { ({ kvSaved := .error () } : PageWorld) with kvSaved := .ok none }
        "https://ex.com/login" "cookies:https://ex.com/login" none =
      Worker1.ensureLoggedIn exEnv
        { ({ kvSaved := .error () } : PageWorld) with
            kvSaved := .ok (some "[]"), jsParse := .ok (some []) }
        "https://ex.com/login" "cookies:https://ex.com/login" none :=
  C6_restore_failure_never_raises exEnv { kvSaved := .error () }
    "https://ex.com/login" "cookies:https://ex.com/login" none (Or.inl rfl)

/-- A watcher-arming operation. -/
def isArmOp : Op → Bool
  | .armNavWatcher _ => true
  | .armSuccessWatcher _ _ => true
  | _ => false

/-- The submit click. -/
def isClickOp : Op → Bool
  | .click _ => true
  | _ => false

theorem credOps_no_arm_click (w : PageWorld) (us ps : String) :
    (Worker1.credOps w us ps).all (fun o => !(isArmOp o || isClickOp o)) = true := by
  have hstep : ∀ (r : Except Unit Bool) (sel : String),
      ((match r with
        | Except.ok true => [Op.typeText sel]
        | _ => []) : List Op).all (fun o => !(isArmOp o || isClickOp o)) = true := by
    intro r sel
    rcases r with u | b
    · rfl
    · cases b <;> rfl
  unfold Worker1.credOps
  simp only [List.all_append, List.all_cons, hstep]
  rfl

theorem freshLogin_watchers_before_click (env : WorkerEnv) (w : PageWorld)
    (loginUrl cookieKey : String) (expectedRedirectUrl : Option String)
    (hgoto : w.gotoLoginOk = .ok ()) :
    ∃ q, (Worker1.freshLogin env w loginUrl cookieKey expectedRedirectUrl).2 =
      ([Op.goto loginUrl, Op.waitForSelector ".auth0-lock-container" 5000,
        Op.waitForSelector (jsOrS env.LOGIN_USER_SELECTOR Worker1.defaultUserSelector) 15000] ++
        Worker1.credOps w (jsOrS env.LOGIN_USER_SELECTOR Worker1.defaultUserSelector)
          (jsOrS env.LOGIN_PASS_SELECTOR Worker1.defaultPassSelector)) ++
      ([Op.armNavWatcher 15000,
        Op.armSuccessWatcher (jsOrNull env.LOGIN_SUCCESS_SELECTOR) 15000,
        Op.click (jsOrS env.LOGIN_SUBMIT_SELECTOR Worker1.defaultSubmitSelector)] ++ q) := by
  unfold Worker1.freshLogin
  simp only [hgoto]
  rcases hd : Worker1.destPhase w loginUrl expectedRedirectUrl with ⟨r, dops⟩
  rcases r with _ | u
  · rcases hpc : w.pageCookiesRes with u | cs
    · exact ⟨(Worker1.scanFrames expectedRedirectUrl w.frames 0).2 ++
        [Op.raceWatchers] ++ dops ++ [Op.pageCookies], by simp⟩
    · exact ⟨(Worker1.scanFrames expectedRedirectUrl w.frames 0).2 ++
        [Op.raceWatchers] ++ dops ++ [Op.pageCookies] ++
        [Op.kvPut cookieKey (serializeCookies cs) (60 * 60 * 24 * 7)], by simp⟩
  · exact ⟨(Worker1.scanFrames expectedRedirectUrl w.frames 0).2 ++
      [Op.raceWatchers] ++ dops, by simp⟩

/-- C7: in the fresh-login flow the navigation watcher and the
success-selector watcher are both created (in that order) before the submit
click — the trace up to the click holds no arming and no click besides those
two arm operations immediately preceding it; `Promise.race` resolves to
whichever watcher settles first, and the later watcher's settlement — indeed
either watcher's settlement — has no effect on the run's result or trace;
each watcher's `.catch(() => null)` turns its rejection (timeout) into a
fulfilled null rather than a propagated error. -/
theorem C7_watchers_armed_before_click (env : WorkerEnv) (w : PageWorld)
    (loginUrl cookieKey : String) (expectedRedirectUrl : Option String)
    (hgoto : w.gotoLoginOk = .ok ()) :
    (∃ q, (Worker1.freshLogin env w loginUrl cookieKey expectedRedirectUrl).2 =
      ([Op.goto loginUrl, Op.waitForSelector ".auth0-lock-container" 5000,
        Op.waitForSelector (jsOrS env.LOGIN_USER_SELECTOR Worker1.defaultUserSelector) 15000] ++
        Worker1.credOps w (jsOrS env.LOGIN_USER_SELECTOR Worker1.defaultUserSelector)
          (jsOrS env.LOGIN_PASS_SELECTOR Worker1.defaultPassSelector)) ++
      ([Op.armNavWatcher 15000,
        Op.armSuccessWatcher (jsOrNull env.LOGIN_SUCCESS_SELECTOR) 15000,
        Op.click (jsOrS env.LOGIN_SUBMIT_SELECTOR Worker1.defaultSubmitSelector)] ++ q)) ∧
    (([Op.goto loginUrl, Op.waitForSelector ".auth0-lock-container" 5000,
        Op.waitForSelector (jsOrS env.LOGIN_USER_SELECTOR Worker1.defaultUserSelector) 15000] ++
        Worker1.credOps w (jsOrS env.LOGIN_USER_SELECTOR Worker1.defaultUserSelector)
          (jsOrS env.LOGIN_PASS_SELECTOR Worker1.defaultPassSelector)).all
      (fun o => !(isArmOp o || isClickOp o)) = true) ∧
    (∀ t₁ t₂ : Nat, ∀ v₁ v₂ : Option Unit, t₁ < t₂ →
      promiseRace (t₁, v₁) (t₂, v₂) = (t₁, v₁)) ∧
    (∀ t₁ t₂ : Nat, ∀ v₁ v₂ : Option Unit, t₂ < t₁ →
      promiseRace (t₁, v₁) (t₂, v₂) = (t₂, v₂)) ∧
    (∀ t : Nat, armWatcher (t, .error ()) = (t, none)) ∧
    (∀ t : Nat, ∀ v : Unit, armWatcher (t, .ok v) = (t, some v)) ∧
    (∀ nav succ : Nat × Except Unit Unit,
      Worker1.freshLogin env { w with navSettle := nav, succSettle := succ }
          loginUrl cookieKey expectedRedirectUrl =
        Worker1.freshLogin env w loginUrl cookieKey expectedRedirectUrl) := by
  refine ⟨freshLogin_watchers_before_click env w loginUrl cookieKey expectedRedirectUrl hgoto,
    ?_, ?_, ?_, ?_, ?_, ?_⟩
  · rw [List.all_append, credOps_no_arm_click]
    rfl
  · intro t₁ t₂ v₁ v₂ h
    simp [promiseRace, Nat.le_of_lt h]
  · intro t₁ t₂ v₁ v₂ h
    simp [promiseRace, Nat.not_le.mpr h]
  · intro t; rfl
  · intro t v; rfl
  · intro nav succ; rfl

theorem C7_watchers_armed_before_click_witness :
    ∃ q, (Worker1.freshLogin exEnv exFreshWorld "https://ex.com/login"
        "cookies:https://ex.com/login" (some "https://ex.com/app")).2 =
      ([Op.goto "https://ex.com/login",
        Op.waitForSelector ".auth0-lock-container" 5000,
        Op.waitForSelector (jsOrS exEnv.LOGIN_USER_SELECTOR Worker1.defaultUserSelector) 15000] ++
        Worker1.credOps exFreshWorld
          (jsOrS exEnv.LOGIN_USER_SELECTOR Worker1.defaultUserSelector)
          (jsOrS exEnv.LOGIN_PASS_SELECTOR Worker1.defaultPassSelector)) ++
      ([Op.armNavWatcher 15000,
        Op.armSuccessWatcher (jsOrNull exEnv.LOGIN_SUCCESS_SELECTOR) 15000,
        Op.click (jsOrS exEnv.LOGIN_SUBMIT_SELECTOR Worker1.defaultSubmitSelector)] ++ q) :=
  (C7_watchers_armed_before_click exEnv exFreshWorld "https://ex.com/login"
    "cookies:https://ex.com/login" (some "https://ex.com/app") rfl).1

theorem jsIndexOf_zero_iff (s sub : String) :
    jsIndexOf s sub = 0 ↔ sub.data <+: s.data := by
  unfold jsIndexOf
  rw [List.range_succ_eq_map]
  by_cases h0 : sub.data.isPrefixOf (s.data.drop 0)
  · rw [List.find?_cons_of_pos _ (by simpa using h0)]
    simpa using List.isPrefixOf_iff_prefix.mp (by simpa using h0)
  · rw [List.find?_cons_of_neg _ (by simpa using h0)]
    rcases hf : List.find? (fun i => sub.data.isPrefixOf (List.drop i s.data))
        (List.map Nat.succ (List.range s.data.length)) with _ | i
    · simp only []
      constructor
      · intro h; exact absurd h (by norm_num)
      · intro h
        exact absurd (List.isPrefixOf_iff_prefix.mpr (by simpa using h)) (by simpa using h0)
    · have hmem := List.mem_of_find?_eq_some hf
      obtain ⟨j, _, hji⟩ := List.mem_map.mp hmem
      constructor
      · intro h
        exfalso
        have hi : (i : Int) = 0 := h
        have : i = 0 := by exact_mod_cast hi
        omega
      · intro h
        exact absurd (List.isPrefixOf_iff_prefix.mpr (by simpa using h)) (by simpa using h0)

theorem pollFirstAux_some (pred : Nat → Bool) :
    ∀ (fuel t r : Nat), pollFirstAux pred t fuel = some r →
      pred r = true ∧ t ≤ r ∧ r ≤ t + fuel ∧
        ∀ u, t ≤ u → u < r → pred u = false := by
  intro fuel
  induction fuel with
  | zero =>
      intro t r h
      unfold pollFirstAux at h
      by_cases hp : pred t
      · simp [hp] at h
        subst h
        exact ⟨hp, le_refl t, by omega, fun u hu1 hu2 => by omega⟩
      · simp [hp] at h
  | succ fuel ih =>
      intro t r h
      unfold pollFirstAux at h
      by_cases hp : pred t
      · simp [hp] at h
        subst h
        exact ⟨hp, le_refl t, by omega, fun u hu1 hu2 => by omega⟩
      · simp [hp] at h
        obtain ⟨hpr, hle, hub, hmin⟩ := ih (t + 1) r h
        refine ⟨hpr, by omega, by omega, fun u hu1 hu2 => ?_⟩
        by_cases hut : u = t
        · subst hut; exact Bool.not_eq_true _ ▸ (by simpa using hp)
        · exact hmin u (by omega) hu2

theorem pollFirstAux_isSome (pred : Nat → Bool) :
    ∀ (fuel t0 t : Nat), t0 ≤ t → t ≤ t0 + fuel → pred t = true →
      (pollFirstAux pred t0 fuel).isSome = true := by
  intro fuel
  induction fuel with
  | zero =>
      intro t0 t h1 h2 hp
      have : t = t0 := by omega
      subst this
      unfold pollFirstAux
      simp [hp]
  | succ fuel ih =>
      intro t0 t h1 h2 hp
      unfold pollFirstAux
      by_cases hp0 : pred t0
      · simp [hp0]
      · have hne : t ≠ t0 := fun he => hp0 (he ▸ hp)
        simp [hp0]
        exact ih (t0 + 1) t (by omega) (by omega) hp

/-- C8: the destination-await phase. With an expected destination `e`, the
engine polls (bounded 30s) the predicate `location.href.indexOf(e) === 0` —
which holds exactly when `e` is a prefix of the current URL — and, the poll
succeeding at its earliest satisfying instant, performs one more bounded
network-idle wait (15s) and returns the page's URL at that point; the poll
finds the first instant within the bound at which the prefix condition holds,
and such an instant is always found when one exists within the bound. With no
expected destination, the engine polls (bounded 30s) for the URL to differ
from the login URL, waits for network idle (15s), and returns no explicit
URL, the caller's `finalAfterLogin || url` fallback then producing its own
default target. -/
theorem C8_destination_await (w : PageWorld) (loginUrl e : String) (t : Nat)
    (he : e ≠ "")
    (hpoll : pollFirst (fun t => jsIndexOf (w.destUrlAt t) e == 0) 30000 = some t) :
    Worker1.destPhase w loginUrl (some e) =
      (some (w.destUrlAt (t + w.idleDelta)),
        [Op.pollForUrlPrefix e 30000, Op.waitForNavigation 15000]) ∧
    (∀ s sub : String, jsIndexOf s sub = 0 ↔ sub.data <+: s.data) ∧
    (jsIndexOf (w.destUrlAt t) e = 0 ∧ t ≤ 30000 ∧
      ∀ u, u < t → (jsIndexOf (w.destUrlAt u) e == 0) = false) ∧
    (∀ (pred : Nat → Bool) (bound r : Nat), r ≤ bound → pred r = true →
      (pollFirst pred bound).isSome = true) ∧
    (∀ (w' : PageWorld) (l : String), Worker1.destPhase w' l none =
      (none, [Op.pollForUrlChange l 30000, Op.waitForNavigation 15000])) ∧
    (∀ u : String, jsOrS none u = u) := by
  have hts : truthyO (some e) = true := by simp [truthyO, bne_iff_ne, he]
  obtain ⟨hpr, _, hub, hmin⟩ := pollFirstAux_some _ 30000 0 t hpoll
  refine ⟨?_, jsIndexOf_zero_iff, ⟨?_, by omega, ?_⟩, ?_, ?_, ?_⟩
  · unfold Worker1.destPhase
    simp [hts, hpoll]
  · simpa using hpr
  · intro u hu
    simpa using hmin u (by omega) hu
  · intro pred bound r h1 h2
    exact pollFirstAux_isSome pred bound 0 r (by omega) (by omega) h2
  · intro w' l; rfl
  · intro u; rfl

theorem C8_destination_await_witness :
    Worker1.destPhase exFreshWorld "https://ex.com/login" (some "https://ex.com/app") =
      (some "https://ex.com/app",
        [Op.pollForUrlPrefix "https://ex.com/app" 30000, Op.waitForNavigation 15000]) :=
  (C8_destination_await exFreshWorld "https://ex.com/login" "https://ex.com/app" 0
    (by decide) (by decide)).1

/-- The claim's matching rule, read from its words: a form matches when its
action string contains the substring `callback`, or contains the expected
destination URL as a substring, or when no expected destination was supplied
at all (then any POST form matches). -/
def claimFormMatch (expected : Option String) (action : Option String) : Bool :=
  match expected with
  | none => true
  | some e =>
      match action with
      | some a => jsIncludes a "callback" || jsIncludes a e
      | none => false

/-- The first matching form of one frame, in form order. -/
def claimFirstForm (e : Option String) : List (Option String) → Nat → Option Nat
  | [], _ => none
  | a :: rest, j => if claimFormMatch e a then some j else claimFirstForm e rest (j + 1)

/-- The first matching (frame, form) pair, in first-frame-then-first-form
order (frames whose form query failed contribute nothing). -/
def firstClaimMatch (e : Option String) : List FrameW → Nat → Option (Nat × Nat)
  | [], _ => none
  | f :: rest, i =>
      match f.postForms with
      | .error _ => firstClaimMatch e rest (i + 1)
      | .ok forms =>
          match claimFirstForm e forms 0 with
          | some j => some (i, j)
          | none => firstClaimMatch e rest (i + 1)

theorem jsIncludes_empty (sub : String) (h : sub ≠ "") : jsIncludes "" sub = false := by
  have hd : sub.data ≠ [] := by
    intro hnil
    apply h
    cases sub with
    | mk data =>
        simp only at hnil
        rw [hnil]
  unfold jsIncludes jsIndexOf
  rcases hld : sub.data with _ | ⟨c, cs⟩
  · exact absurd hld hd
  · simp [hld, List.isPrefixOf]
    decide

theorem formMatch_eq_claim (e : Option String) (he : e ≠ some "") (a : Option String) :
    Worker1.formMatch e a = claimFormMatch e a := by
  unfold Worker1.formMatch claimFormMatch
  rcases e with _ | e
  · rcases a with _ | a <;> simp [truthyO]
  · have he' : e ≠ "" := fun hh => he (by rw [hh])
    have hts : truthyO (some e) = true := by simp [truthyO, bne_iff_ne, he']
    rcases a with _ | a
    · simp [hts]
    · by_cases ha : a = ""
      · subst ha
        simp [hts, jsIncludes_empty "callback" (by decide), jsIncludes_empty e he']
      · simp [hts, bne_iff_ne, ha]

theorem scanForms_fst (e : Option String) (he : e ≠ some "") (i : Nat) :
    ∀ (forms : List (Option String)) (j : Nat),
      (Worker1.scanForms e i forms j).1 = claimFirstForm e forms j := by
  intro forms
  induction forms with
  | nil => intro j; rfl
  | cons a rest ih =>
      intro j
      unfold Worker1.scanForms claimFirstForm
      rw [formMatch_eq_claim e he a]
      by_cases hm : claimFormMatch e a
      · simp [hm]
      · simp [hm, ih (j + 1)]

theorem scanFrames_fst (e : Option String) (he : e ≠ some "") :
    ∀ (frames : List FrameW) (i : Nat),
      (Worker1.scanFrames e frames i).1 = firstClaimMatch e frames i := by
  intro frames
  induction frames with
  | nil => intro i; rfl
  | cons f rest ih =>
      intro i
      unfold Worker1.scanFrames firstClaimMatch
      rcases hpf : f.postForms with u | forms
      · simp [ih (i + 1)]
      · by_cases hempty : forms.isEmpty
        · have hnil : forms = [] := List.isEmpty_iff.mp hempty
          subst hnil
          simp [ih (i + 1), claimFirstForm]
        · rcases hs : Worker1.scanForms e i forms 0 with ⟨r, ops⟩
          have h1 : claimFirstForm e forms 0 = r := by
            rw [← scanForms_fst e he i forms 0, hs]
          rcases r with _ | j
          · simp [hs, h1, ih (i + 1), hempty]
          · simp [hs, h1, hempty]

theorem scanForms_some_shape (e : Option String) (i : Nat) :
    ∀ (forms : List (Option String)) (j0 r : Nat) (ops : List Op),
      Worker1.scanForms e i forms j0 = (some r, ops) →
      j0 ≤ r ∧
      ∃ E, ops = E ++ [Op.submitForm i r, Op.waitForNavigation 30000] ∧
        ∀ o ∈ E, ∃ j', j0 ≤ j' ∧ j' ≤ r ∧ o = Op.evalFormStep i j' := by
  intro forms
  induction forms with
  | nil =>
      intro j0 r ops h
      simp [Worker1.scanForms] at h
  | cons a rest ih =>
      intro j0 r ops h
      unfold Worker1.scanForms at h
      by_cases hm : Worker1.formMatch e a
      · rw [if_pos hm] at h
        simp only [Prod.mk.injEq, Option.some.injEq] at h
        obtain ⟨h1, h2⟩ := h
        subst h1
        subst h2
        refine ⟨le_refl j0, [Op.evalFormStep i j0], rfl, ?_⟩
        intro o ho
        simp only [List.mem_singleton] at ho
        exact ⟨j0, le_refl j0, le_refl j0, ho⟩
      · rw [if_neg hm] at h
        rcases hrec : Worker1.scanForms e i rest (j0 + 1) with ⟨r', ops'⟩
        rw [hrec] at h
        simp only [Prod.mk.injEq] at h
        obtain ⟨h1, h2⟩ := h
        subst h2
        obtain ⟨hle, E', hE, hmem⟩ := ih (j0 + 1) r ops' (by rw [hrec, h1])
        refine ⟨by omega, Op.evalFormStep i j0 :: E', by simp [hE], ?_⟩
        intro o ho
        rcases List.mem_cons.mp ho with rfl | ho'
        · exact ⟨j0, le_refl j0, by omega, rfl⟩
        · obtain ⟨j', hj1, hj2, hj3⟩ := hmem o ho'
          exact ⟨j', by omega, hj2, hj3⟩

theorem scanForms_none_shape (e : Option String) (i : Nat) :
    ∀ (forms : List (Option String)) (j0 : Nat) (ops : List Op),
      Worker1.scanForms e i forms j0 = (none, ops) →
      ∀ o ∈ ops, ∃ j', j0 ≤ j' ∧ o = Op.evalFormStep i j' := by
  intro forms
  induction forms with
  | nil =>
      intro j0 ops h
      simp [Worker1.scanForms] at h
      subst h
      intro o ho
      simp at ho
  | cons a rest ih =>
      intro j0 ops h
      unfold Worker1.scanForms at h
      by_cases hm : Worker1.formMatch e a
      · rw [if_pos hm] at h
        simp at h
      · rw [if_neg hm] at h
        rcases hrec : Worker1.scanForms e i rest (j0 + 1) with ⟨r', ops'⟩
        rw [hrec] at h
        simp only [Prod.mk.injEq] at h
        obtain ⟨h1, h2⟩ := h
        subst h2
        intro o ho
        rcases List.mem_cons.mp ho with rfl | ho'
        · exact ⟨j0, le_refl j0, rfl⟩
        · obtain ⟨j', hj1, hj3⟩ := ih (j0 + 1) ops' (by rw [hrec, h1]) o ho'
          exact ⟨j', by omega, hj3⟩

theorem scanFrames_none_shape (e : Option String) :
    ∀ (frames : List FrameW) (i0 : Nat) (ops : List Op),
      Worker1.scanFrames e frames i0 = (none, ops) →
      ∀ o ∈ ops, isSubmitOp o = false := by
  intro frames
  induction frames with
  | nil =>
      intro i0 ops h
      simp [Worker1.scanFrames] at h
      subst h
      intro o ho
      simp at ho
  | cons f rest ih =>
      intro i0 ops h
      unfold Worker1.scanFrames at h
      rcases hpf : f.postForms with u | forms
      · rw [hpf] at h
        rcases hrec : Worker1.scanFrames e rest (i0 + 1) with ⟨r', ops'⟩
        rw [hrec] at h
        simp only [Prod.mk.injEq] at h
        obtain ⟨h1, h2⟩ := h
        subst h2
        intro o ho
        rcases List.mem_cons.mp ho with rfl | ho'
        · rfl
        · exact ih (i0 + 1) ops' (by rw [hrec, h1]) o ho'
      · rw [hpf] at h
        dsimp only at h
        by_cases hempty : forms.isEmpty
        · rw [if_pos hempty] at h
          rcases hrec : Worker1.scanFrames e rest (i0 + 1) with ⟨r', ops'⟩
          rw [hrec] at h
          simp only [Prod.mk.injEq] at h
          obtain ⟨h1, h2⟩ := h
          subst h2
          intro o ho
          rcases List.mem_cons.mp ho with rfl | ho'
          · rfl
          · exact ih (i0 + 1) ops' (by rw [hrec, h1]) o ho'
        · rw [if_neg hempty] at h
          rcases hsf : Worker1.scanForms e i0 forms 0 with ⟨rf, fops⟩
          rw [hsf] at h
          rcases rf with _ | jf
          · rcases hrec : Worker1.scanFrames e rest (i0 + 1) with ⟨r', ops'⟩
            rw [hrec] at h
            simp only [Prod.mk.injEq] at h
            obtain ⟨h1, h2⟩ := h
            subst h2
            intro o ho
            rcases List.mem_cons.mp ho with rfl | ho'
            · rfl
            · rcases List.mem_append.mp ho' with hf | hr
              · obtain ⟨j', _, hj3⟩ := scanForms_none_shape e i0 forms 0 fops hsf o hf
                subst hj3; rfl
              · exact ih (i0 + 1) ops' (by rw [hrec, h1]) o hr
          · simp at h

theorem scanFrames_some_shape (e : Option String) :
    ∀ (frames : List FrameW) (i0 i j : Nat) (ops : List Op),
      Worker1.scanFrames e frames i0 = (some (i, j), ops) →
      i0 ≤ i ∧
      ∃ E, ops = E ++ [Op.submitForm i j, Op.waitForNavigation 30000] ∧
        ∀ o ∈ E,
          (∃ i', i0 ≤ i' ∧ i' ≤ i ∧ o = Op.queryFrameForms i') ∨
          (∃ i' j', i0 ≤ i' ∧ (i' < i ∨ (i' = i ∧ j' ≤ j)) ∧ o = Op.evalFormStep i' j') := by
  intro frames
  induction frames with
  | nil =>
      intro i0 i j ops h
      simp [Worker1.scanFrames] at h
  | cons f rest ih =>
      intro i0 i j ops h
      unfold Worker1.scanFrames at h
      rcases hpf : f.postForms with u | forms
      · rw [hpf] at h
        rcases hrec : Worker1.scanFrames e rest (i0 + 1) with ⟨r', ops'⟩
        rw [hrec] at h
        simp only [Prod.mk.injEq] at h
        obtain ⟨h1, h2⟩ := h
        subst h2
        obtain ⟨hle, E', hE, hmem⟩ := ih (i0 + 1) i j ops' (by rw [hrec, h1])
        refine ⟨by omega, Op.queryFrameForms i0 :: E', by simp [hE], ?_⟩
        intro o ho
        rcases List.mem_cons.mp ho with rfl | ho'
        · exact Or.inl ⟨i0, le_refl i0, by omega, rfl⟩
        · rcases hmem o ho' with ⟨i', h1', h2', h3'⟩ | ⟨i', j', h1', h2', h3'⟩
          · exact Or.inl ⟨i', by omega, h2', h3'⟩
          · exact Or.inr ⟨i', j', by omega, h2', h3'⟩
      · rw [hpf] at h
        dsimp only at h
        by_cases hempty : forms.isEmpty
        · rw [if_pos hempty] at h
          rcases hrec : Worker1.scanFrames e rest (i0 + 1) with ⟨r', ops'⟩
          rw [hrec] at h
          simp only [Prod.mk.injEq] at h
          obtain ⟨h1, h2⟩ := h
          subst h2
          obtain ⟨hle, E', hE, hmem⟩ := ih (i0 + 1) i j ops' (by rw [hrec, h1])
          refine ⟨by omega, Op.queryFrameForms i0 :: E', by simp [hE], ?_⟩
          intro o ho
          rcases List.mem_cons.mp ho with rfl | ho'
          · exact Or.inl ⟨i0, le_refl i0, by omega, rfl⟩
          · rcases hmem o ho' with ⟨i', h1', h2', h3'⟩ | ⟨i', j', h1', h2', h3'⟩
            · exact Or.inl ⟨i', by omega, h2', h3'⟩
            · exact Or.inr ⟨i', j', by omega, h2', h3'⟩
        · rw [if_neg hempty] at h
          rcases hsf : Worker1.scanForms e i0 forms 0 with ⟨rf, fops⟩
          rw [hsf] at h
          rcases rf with _ | jf
          · -- no match in this frame: the result comes from the remaining frames
            rcases hrec : Worker1.scanFrames e rest (i0 + 1) with ⟨r', ops'⟩
            rw [hrec] at h
            simp only [Prod.mk.injEq] at h
            obtain ⟨h1, h2⟩ := h
            subst h2
            obtain ⟨hle, E', hE, hmem⟩ := ih (i0 + 1) i j ops' (by rw [hrec, h1])
            refine ⟨by omega, (Op.queryFrameForms i0 :: fops) ++ E', by simp [hE], ?_⟩
            intro o ho
            rcases List.mem_append.mp ho with hf | hr
            · rcases List.mem_cons.mp hf with rfl | hf'
              · exact Or.inl ⟨i0, le_refl i0, by omega, rfl⟩
              · obtain ⟨j', _, hj3⟩ := scanForms_none_shape e i0 forms 0 fops hsf o hf'
                exact Or.inr ⟨i0, j', le_refl i0, Or.inl (by omega), hj3⟩
            · rcases hmem o hr with ⟨i', h1', h2', h3'⟩ | ⟨i', j', h1', h2', h3'⟩
              · exact Or.inl ⟨i', by omega, h2', h3'⟩
              · exact Or.inr ⟨i', j', by omega, h2', h3'⟩
          · -- the first matching form sits in this frame
            simp only [Prod.mk.injEq, Option.some.injEq] at h
            obtain ⟨⟨hi, hj⟩, h2⟩ := h
            subst hi
            subst hj
            subst h2
            obtain ⟨_, E', hE, hmem⟩ := scanForms_some_shape e i0 forms 0 jf fops hsf
            refine ⟨le_refl i0, Op.queryFrameForms i0 :: E', by simp [hE], ?_⟩
            intro o ho
            rcases List.mem_cons.mp ho with rfl | ho'
            · exact Or.inl ⟨i0, le_refl i0, le_refl i0, rfl⟩
            · obtain ⟨j', _, hj2, hj3⟩ := hmem o ho'
              exact Or.inr ⟨i0, j', le_refl i0, Or.inr ⟨rfl, hj2⟩, hj3⟩


/-- C4: during the post-submit frame scan, at most one form is ever
submitted: exactly the first form in first-frame-then-first-form order whose
action contains the substring `callback`, or contains the expected
destination URL as a substring, or (when no expected destination was
supplied) any POST form at all; every frame or form examined lies at or
before the submitted position and nothing at all follows the submission and
its bounded navigation wait. (Stated for any expected destination other than
the degenerate empty string, where "supplied" and JS truthiness part ways.) -/
theorem C4_single_relay_submission (e : Option String) (frames : List FrameW)
    (he : e ≠ some "") :
    (Worker1.scanFrames e frames 0).1 = firstClaimMatch e frames 0 ∧
    ((Worker1.scanFrames e frames 0).2.filter isSubmitOp).length ≤ 1 ∧
    (∀ i j, (Worker1.scanFrames e frames 0).1 = some (i, j) →
      (Worker1.scanFrames e frames 0).2.filter isSubmitOp = [Op.submitForm i j] ∧
      ∃ E, (Worker1.scanFrames e frames 0).2 =
          E ++ [Op.submitForm i j, Op.waitForNavigation 30000] ∧
        ∀ o ∈ E,
          (∃ i2, i2 ≤ i ∧ o = Op.queryFrameForms i2) ∨
          (∃ i2 j2, (i2 < i ∨ (i2 = i ∧ j2 ≤ j)) ∧ o = Op.evalFormStep i2 j2)) ∧
    ((Worker1.scanFrames e frames 0).1 = none →
      (Worker1.scanFrames e frames 0).2.filter isSubmitOp = []) := by
  have hsub : ∀ i j, (Worker1.scanFrames e frames 0).1 = some (i, j) →
      (Worker1.scanFrames e frames 0).2.filter isSubmitOp = [Op.submitForm i j] ∧
      ∃ E, (Worker1.scanFrames e frames 0).2 =
          E ++ [Op.submitForm i j, Op.waitForNavigation 30000] ∧
        ∀ o ∈ E,
          (∃ i2, i2 ≤ i ∧ o = Op.queryFrameForms i2) ∨
          (∃ i2 j2, (i2 < i ∨ (i2 = i ∧ j2 ≤ j)) ∧ o = Op.evalFormStep i2 j2) := by
    intro i j hres
    have hpair := Prod.mk.eta (p := Worker1.scanFrames e frames 0)
    rw [hres] at hpair
    obtain ⟨-, E, hE, hmem⟩ :=
      scanFrames_some_shape e frames 0 i j (Worker1.scanFrames e frames 0).2 hpair.symm
    have hEnil : E.filter isSubmitOp = [] := by
      rw [List.filter_eq_nil_iff]
      intro o ho
      rcases hmem o ho with ⟨i2, _, _, h3⟩ | ⟨i2, j2, _, _, h3⟩ <;> simp [h3, isSubmitOp]
    constructor
    · rw [hE, List.filter_append, hEnil]
      simp [isSubmitOp]
    · refine ⟨E, hE, ?_⟩
      intro o ho
      rcases hmem o ho with ⟨i2, _, h2, h3⟩ | ⟨i2, j2, _, h2, h3⟩
      · exact Or.inl ⟨i2, h2, h3⟩
      · exact Or.inr ⟨i2, j2, h2, h3⟩
  have hnone : (Worker1.scanFrames e frames 0).1 = none →
      (Worker1.scanFrames e frames 0).2.filter isSubmitOp = [] := by
    intro hres
    have hpair := Prod.mk.eta (p := Worker1.scanFrames e frames 0)
    rw [hres] at hpair
    rw [List.filter_eq_nil_iff]
    intro o ho
    simp [scanFrames_none_shape e frames 0 (Worker1.scanFrames e frames 0).2
      hpair.symm o ho]
  refine ⟨scanFrames_fst e he frames 0, ?_, hsub, hnone⟩
  rcases hres : (Worker1.scanFrames e frames 0).1 with _ | ⟨i, j⟩
  · rw [hnone hres]
    simp
  · rw [(hsub i j hres).1]
    simp

/-- Frames for the relay scenario: the first frame's second form posts to the
application's callback endpoint; a later frame's form would also match but is
never reached. -/
def exFrames : List FrameW :=
  [{ url := "https://idp.example/first",
     postForms := .ok [some "https://other.example/x",
       some "https://ex.com/callback?code=1"] },
   { url := "https://idp.example/second",
     postForms := .ok [some "https://zzz.example/callback"] }]

theorem C4_single_relay_submission_witness :
    (Worker1.scanFrames (some "https://ex.com/app") exFrames 0).1 =
      firstClaimMatch (some "https://ex.com/app") exFrames 0 ∧
    ((Worker1.scanFrames (some "https://ex.com/app") exFrames 0).2.filter
        isSubmitOp).length ≤ 1 ∧
    (∀ i j, (Worker1.scanFrames (some "https://ex.com/app") exFrames 0).1 = some (i, j) →
      (Worker1.scanFrames (some "https://ex.com/app") exFrames 0).2.filter
          isSubmitOp = [Op.submitForm i j] ∧
      ∃ E, (Worker1.scanFrames (some "https://ex.com/app") exFrames 0).2 =
          E ++ [Op.submitForm i j, Op.waitForNavigation 30000] ∧
        ∀ o ∈ E,
          (∃ i2, i2 ≤ i ∧ o = Op.queryFrameForms i2) ∨
          (∃ i2 j2, (i2 < i ∨ (i2 = i ∧ j2 ≤ j)) ∧ o = Op.evalFormStep i2 j2)) ∧
    ((Worker1.scanFrames (some "https://ex.com/app") exFrames 0).1 = none →
      (Worker1.scanFrames (some "https://ex.com/app") exFrames 0).2.filter
        isSubmitOp = []) :=
  C4_single_relay_submission (some "https://ex.com/app") exFrames (by decide)
